/-
Verification of the dating-app backend against its specification.

The definitions below are a shallow embedding of the backend's Python
source (FastAPI routes, service layer, SQLAlchemy models) into Lean:

* database tables become lists of row structures; the list order of a
  table models the (unspecified) scan order the database returns rows in;
* service methods become pure functions from an explicit database state
  to an `Except`-style result, returning the updated state on success;
* rows committed by concurrent transactions between an operation's
  pre-checks and its commit are passed explicitly as a `race` list, so
  uniqueness races at commit time are expressible;
* JWTs are modelled as a payload (a Python-dict-like association list)
  together with the secret and algorithm they were signed with; decoding
  checks secret, algorithm and expiry;
* UUID identifiers (users / auth users, per the final migration state)
  are modelled as their textual rendering, i.e. `String`.
-/
import Mathlib

deriving instance DecidableEq for Except

namespace DatingApp

/-- HTTPException carrying a status code and a human-readable detail. -/
structure HErr where
  statusCode : Nat
  detail : String
  deriving DecidableEq

/-- Result of a service operation: either an HTTPException raised and
translated by the route layer, or a database `IntegrityError` that no
`try/except` in the service caught and which therefore escapes as an
unhandled server error (HTTP 500). -/
inductive SvcErr where
  | http (e : HErr)
  | integrityError
  deriving DecidableEq

/-! ## JSON values and Python-dict association lists -/

/-- JSON-ish claim value: string, integer, or a datetime (epoch seconds). -/
inductive JVal where
  | s (v : String)
  | n (v : Int)
  | t (v : Nat)
  deriving DecidableEq

/-- Python dict modelled as an association list (unique keys maintained by
`dictSet`). -/
abbrev JDict := List (String × JVal)

/-- Python `d[k]` / `d.get(k)`: first binding of `k`. -/
def dictGet (d : JDict) (k : String) : Option JVal :=
  (d.find? (fun p => p.1 == k)).map (fun p => p.2)

/-- Python `d[k] = v`: overwrite an existing binding in place, else append. -/
def dictSet (d : JDict) (k : String) (v : JVal) : JDict :=
  if d.any (fun p => p.1 == k) then
    d.map (fun p => if p.1 == k then (k, v) else p)
  else
    d ++ [(k, v)]

/-- Python `d.update(extra)`: set every binding of `extra` in order. -/
def dictUpdate (d : JDict) : JDict → JDict
  | [] => d
  | (k, v) :: rest => dictUpdate (dictSet d k v) rest

/-! ## Token and password security module (`app/core/security.py`) -/

/-- Settings fields used by the security module (`app/core/config.py`).
Defaults in the source: algorithm "HS256", access 15 minutes, refresh
10080 minutes. -/
structure Settings where
  jwt_secret_key : String
  jwt_algorithm : String
  access_token_expire_minutes : Nat
  refresh_token_expire_minutes : Nat
  deriving DecidableEq

/-- Signed token: the payload plus the secret and algorithm it was signed
with. `jwt.encode` packages exactly this information; signature checking
on decode is modelled as comparing secret and algorithm. -/
structure Jwt where
  payload : JDict
  secret : String
  alg : String
  deriving DecidableEq

/-- Error raised by the JWT library on decode failure. -/
inductive JWTError where
  | invalid
  | expired
  deriving DecidableEq

/-- Decode a token (python-jose `jwt.decode`): the signature check fails
unless secret and algorithm match; an `exp` claim at or before `now`
means the token is expired; `exp` must be a timestamp when present. -/
def jwtDecode (tok : Jwt) (secret : String) (algs : List String) (now : Nat) :
    Except JWTError JDict :=
  if tok.secret ≠ secret then .error .invalid
  else if tok.alg ∉ algs then .error .invalid
  else
    match dictGet tok.payload "exp" with
    | some (.t e) => if e ≤ now then .error .expired else .ok tok.payload
    | some _ => .error .invalid
    | none => .ok tok.payload

/-- Payload built by `_create_token`: the four registered claims, then the
additional claims merged in with dict-update semantics (overwriting on key
collision). `expiresDelta` is in seconds. -/
def createTokenPayload (tokenType subject : String) (now expiresDelta : Nat)
    (additionalClaims : JDict) : JDict :=
  dictUpdate
    [("type", .s tokenType), ("sub", .s subject),
     ("iat", .t now), ("exp", .t (now + expiresDelta))]
    additionalClaims

/-- Python `expires_minutes or settings.<default>`: `or` falls through to
the default when the override is `None` or `0` (falsy). -/
def effectiveMinutes (expiresMinutes : Option Nat) (dflt : Nat) : Nat :=
  match expiresMinutes with
  | none => dflt
  | some m => if m = 0 then dflt else m

/-- Embedding of `create_access_token`: a token of type "access" signed
with the configured secret and algorithm, lifetime in minutes defaulting
to the configured access-token minutes. -/
def create_access_token (subject : String) (expiresMinutes : Option Nat)
    (additionalClaims : Option JDict) (settings : Settings) (now : Nat) : Jwt :=
  let minutes := effectiveMinutes expiresMinutes settings.access_token_expire_minutes
  { payload := createTokenPayload "access" subject now (60 * minutes)
      (additionalClaims.getD []),
    secret := settings.jwt_secret_key,
    alg := settings.jwt_algorithm }

/-- Embedding of `create_refresh_token`: identical shape with type
"refresh" and the refresh lifetime default. -/
def create_refresh_token (subject : String) (expiresMinutes : Option Nat)
    (additionalClaims : Option JDict) (settings : Settings) (now : Nat) : Jwt :=
  let minutes := effectiveMinutes expiresMinutes settings.refresh_token_expire_minutes
  { payload := createTokenPayload "refresh" subject now (60 * minutes)
      (additionalClaims.getD []),
    secret := settings.jwt_secret_key,
    alg := settings.jwt_algorithm }

/-- Embedding of `decode_token`: decode against the configured secret and
(single-element list of) configured algorithm. -/
def decode_token (tok : Jwt) (settings : Settings) (now : Nat) :
    Except JWTError JDict :=
  jwtDecode tok settings.jwt_secret_key [settings.jwt_algorithm] now

/-- Embedding of `validate_password_length`: rejects passwords whose UTF-8
encoding exceeds 72 bytes (bcrypt's hard limit). Returns the error message
raised as `ValueError` in the source. -/
def validate_password_length (password : String) : Except String Unit :=
  if password.utf8ByteSize > 72 then
    .error "Password exceeds bcrypt 72-byte limit."
  else .ok ()

/-- Placeholder for the vendored bcrypt hash itself (out of spec scope);
the length guard around it is the embedded source behaviour. -/
def bcryptDigest (password : String) : String :=
  "$2b$12$" ++ password

/-- Embedding of `get_password_hash`: validate the 72-byte limit, then
hash. -/
def get_password_hash (password : String) : Except String String :=
  match validate_password_length password with
  | .error msg => .error msg
  | .ok _ => .ok (bcryptDigest password)

/-! ## User and AuthUser model (`app/models/user.py`, final UUID state) -/

/-- UUID identifiers (the final migration state for users / auth users)
are modelled by their textual rendering. -/
abbrev Uuid := String

/-- User profile row. `prompts` is an arbitrary JSON document. -/
structure UserRow where
  id : Uuid
  name : String
  email : Option String
  phone_number : Option String
  interests : Option (List String)
  location : Option String
  pictures : Option (List String)
  prompts : Option JDict
  deriving DecidableEq

/-- Credential row; `user_id` references the paired `UserRow`. -/
structure AuthUserRow where
  id : Uuid
  email : String
  password_hash : String
  is_active : Bool
  user_id : Uuid
  deriving DecidableEq

/-- Auth-side database state: the `users` and `auth_users` tables. -/
structure AuthDb where
  users : List UserRow
  auth_users : List AuthUserRow
  deriving DecidableEq

/-- Embedding of `AuthService.get_auth_user_by_email`: exact-match lookup. -/
def get_auth_user_by_email (db : AuthDb) (email : String) : Option AuthUserRow :=
  db.auth_users.find? (fun a => a.email == email)

/-- Embedding of `AuthService.get_auth_user_by_id`. The route passes the
identifier already rendered to text (see `refresh_token_route`). -/
def get_auth_user_by_id (db : AuthDb) (authUserId : Uuid) : Option AuthUserRow :=
  db.auth_users.find? (fun a => a.id == authUserId)

/-! ## Signup (`app/schemas/auth.py`, `app/services/auth.py`) -/

/-- Signup request body (`SignUpRequest` schema). -/
structure SignUpRequest where
  email : String
  password : String
  name : String
  phone_number : Option String
  interests : Option (List String)
  location : Option String
  pictures : Option (List String)
  prompts : Option JDict
  deriving DecidableEq

/-- Structural validation performed by the schema layer before any
handler runs: password length between 8 and 72 characters (code points,
Python `len`), name at least one character. The email-format check is
performed by a vendored validator and is not modelled. -/
def signUpRequestValid (req : SignUpRequest) : Bool :=
  decide (8 ≤ req.password.length) && decide (req.password.length ≤ 72) &&
    decide (1 ≤ req.name.length)

/-- Embedding of `AuthService.create_user_with_auth`. Returns the
database state after the call together with the outcome; on any failure
path the state is the unchanged input (the transaction never commits, or
is rolled back). `raceAuth` holds auth rows committed by concurrent
transactions between the duplicate-email pre-check and this commit;
`freshUserId` / `freshAuthId` are the generated primary keys. -/
def create_user_with_auth (db : AuthDb) (raceAuth : List AuthUserRow)
    (data : SignUpRequest) (freshUserId freshAuthId : Uuid) :
    AuthDb × Except HErr AuthUserRow :=
  match get_auth_user_by_email db data.email with
  | some _ => (db, .error ⟨400, "Email is already registered."⟩)
  | none =>
    let profile : UserRow :=
      { id := freshUserId, name := data.name, email := some data.email,
        phone_number := data.phone_number, interests := data.interests,
        location := data.location, pictures := data.pictures,
        prompts := data.prompts }
    match get_password_hash data.password with
    | .error msg => (db, .error ⟨400, msg⟩)
    | .ok passwordHash =>
      let authUser : AuthUserRow :=
        { id := freshAuthId, email := data.email,
          password_hash := passwordHash, is_active := true,
          user_id := freshUserId }
      -- Commit: the unique constraint on auth_users.email fires if a
      -- concurrent transaction inserted the same email after the
      -- pre-check; the IntegrityError is caught and reported as 400.
      if (db.auth_users ++ raceAuth).any (fun a => a.email == data.email) then
        (db, .error ⟨400, "Unable to create user with the provided details."⟩)
      else
        ({ users := db.users ++ [profile],
           auth_users := db.auth_users ++ [authUser] }, .ok authUser)

/-- Outcome of the signup endpoint including the schema-validation layer. -/
inductive SignupOutcome where
  | validationError
  | httpError (e : HErr)
  | created (db : AuthDb) (authUser : AuthUserRow)
  deriving DecidableEq

/-- Signup endpoint: request bodies failing structural validation are
rejected with 422 before the service (and hence the hashing step) runs;
otherwise `create_user_with_auth` decides the outcome. -/
def signupEndpoint (db : AuthDb) (raceAuth : List AuthUserRow)
    (req : SignUpRequest) (freshUserId freshAuthId : Uuid) : SignupOutcome :=
  if signUpRequestValid req then
    match create_user_with_auth db raceAuth req freshUserId freshAuthId with
    | (_, .error e) => .httpError e
    | (db', .ok authUser) => .created db' authUser
  else .validationError

/-! ## Token refresh route (`app/api/routes/auth.py`) -/

/-- Surrounding-whitespace strip on a character list. -/
def stripWhitespace (cs : List Char) : List Char :=
  ((cs.dropWhile Char.isWhitespace).reverse.dropWhile Char.isWhitespace).reverse

/-- Python `int(s)`: strip surrounding whitespace, allow one optional
sign, then require at least one decimal digit and nothing else. (Python
also accepts underscore digit separators, irrelevant here.) -/
def pyIntParse (s : String) : Option Int :=
  let toNatVal (cs : List Char) : Int :=
    Int.ofNat (cs.foldl (fun n c => n * 10 + (c.toNat - '0'.toNat)) 0)
  let digits (cs : List Char) : Bool := !cs.isEmpty && cs.all Char.isDigit
  match stripWhitespace s.toList with
  | '+' :: rest => if digits rest then some (toNatVal rest) else none
  | '-' :: rest => if digits rest then some (-(toNatVal rest)) else none
  | cs => if digits cs then some (toNatVal cs) else none

/-- Token pair issued by `_issue_tokens`: access and refresh tokens whose
subject is the AuthUser identifier rendered as text, with the profile
identifier as an extra `user_id` claim. -/
def issue_tokens (authUserId userId : Uuid) (settings : Settings) (now : Nat) :
    Jwt × Jwt :=
  let claims : JDict := [("user_id", .s userId)]
  (create_access_token authUserId none (some claims) settings now,
   create_refresh_token authUserId none (some claims) settings now)

/-- Embedding of the `POST /auth/token/refresh` route. The source parses
the token subject with `int(subject)` and queries `AuthUser.id ==
auth_user_id` with that integer; since AuthUser primary keys are UUIDs
in the final state, the lookup is modelled by comparing against the
integer's textual rendering (which can never equal a UUID either). -/
def refresh_token_route (db : AuthDb) (settings : Settings) (now : Nat)
    (tok : Jwt) : Except HErr (Jwt × Jwt) :=
  match decode_token tok settings now with
  | .error _ => .error ⟨401, "Invalid refresh token."⟩
  | .ok data =>
    if dictGet data "type" ≠ some (.s "refresh") then
      .error ⟨400, "Provided token is not a refresh token."⟩
    else
      match dictGet data "sub" with
      | none => .error ⟨401, "Invalid refresh token."⟩
      | some subClaim =>
        let subjectText :=
          match subClaim with
          | .s v => v
          | .n v => toString v
          | .t v => toString v
        match pyIntParse subjectText with
        | none => .error ⟨401, "Invalid refresh token."⟩
        | some authUserIdInt =>
          match get_auth_user_by_id db (toString authUserIdInt) with
          | none => .error ⟨401, "Invalid or inactive user."⟩
          | some authUser =>
            if !authUser.is_active then
              .error ⟨401, "Invalid or inactive user."⟩
            else
              .ok (issue_tokens authUser.id authUser.user_id settings now)

/-! ## Matching models (`app/models/matching.py`) -/

/-- Group row (integer surrogate key). -/
structure GroupRow where
  id : Nat
  name : Option String
  description : Option String
  created_by_id : Option Uuid
  is_active : Bool
  deriving DecidableEq

/-- Group membership row; `(group_id, user_id)` is unique in the table. -/
structure GroupMemberRow where
  id : Nat
  group_id : Nat
  user_id : Uuid
  role : String
  is_active : Bool
  deriving DecidableEq

/-- Like row with the denormalized approval counters. -/
structure LikeRow where
  id : Nat
  liker_group_id : Nat
  likee_group_id : Nat
  initiator_user_id : Option Uuid
  group_b_approvals_count : Nat
  group_b_required_count : Nat
  group_a_approvals_count : Nat
  group_a_required_count : Nat
  status : String
  matched_at : Option Nat
  deriving DecidableEq

/-- Match row; the table carries `UniqueConstraint(group1_id, group2_id)`
and `CheckConstraint(group1_id < group2_id)`. -/
structure MatchRow where
  id : Nat
  group1_id : Nat
  group2_id : Nat
  matched_at : Nat
  is_active : Bool
  deriving DecidableEq

/-- Matching-side database state. The list order of each table models the
scan order in which the database returns rows (no query in the service
orders these result sets). -/
structure MDb where
  groups : List GroupRow
  group_members : List GroupMemberRow
  likes : List LikeRow
  matchRows : List MatchRow
  deriving DecidableEq

/-- Lookup `db.get(Like, like_id)`. -/
def dbGetLike (db : MDb) (likeId : Nat) : Option LikeRow :=
  db.likes.find? (fun l => l.id == likeId)

/-- Lookup `db.get(Group, group_id)`. -/
def dbGetGroup (db : MDb) (groupId : Nat) : Option GroupRow :=
  db.groups.find? (fun g => g.id == groupId)

/-- Query for the approving user's active memberships
(`GroupMember.user_id == user_id, GroupMember.is_active == True`),
in table scan order. -/
def activeMemberships (db : MDb) (userId : Uuid) : List GroupMemberRow :=
  db.group_members.filter (fun m => m.user_id == userId && m.is_active)

/-- Count of a group's active members, as computed in `create_like`. -/
def countActiveMembers (db : MDb) (groupId : Nat) : Nat :=
  (db.group_members.filter (fun m => m.group_id == groupId && m.is_active)).length

/-- Membership-scan loop of `approve_like`: walk the user's active
memberships in scan order; for each row, test the likee group first,
then the liker group, and break on the first row matching either. -/
def selectUserGroupId (like : LikeRow) : List GroupMemberRow → Option Nat
  | [] => none
  | m :: rest =>
    if m.group_id = like.likee_group_id then some like.likee_group_id
    else if m.group_id = like.liker_group_id then some like.liker_group_id
    else selectUserGroupId like rest

/-- Replace the like row with the given id (the ORM flushes the mutated
object back to its row at commit). -/
def updateLikeRow (likes : List LikeRow) (l : LikeRow) : List LikeRow :=
  likes.map (fun x => if x.id = l.id then l else x)

/-- Match row constructed in the matched branch of `approve_like`:
`group1_id` is the smaller and `group2_id` the larger group identifier.
The surrogate key is modelled as the next list position; no claim
depends on id values. -/
def newMatchRow (db : MDb) (like : LikeRow) (now : Nat) : MatchRow :=
  { id := db.matchRows.length + 1,
    group1_id := min like.liker_group_id like.likee_group_id,
    group2_id := max like.liker_group_id like.likee_group_id,
    matched_at := now,
    is_active := true }

/-- Database-side constraints on a Match insert: the unique constraint
`uq_match` on `(group1_id, group2_id)` and the check constraint
`group1_id < group2_id`. A violating insert raises IntegrityError at
commit. -/
def matchInsertConflicts (ms : List MatchRow) (m : MatchRow) : Bool :=
  ms.any (fun x => x.group1_id == m.group1_id && x.group2_id == m.group2_id)
    || !(m.group1_id < m.group2_id : Bool)

/-! ## Matching service (`app/services/matching.py`) -/

/-- Like row inserted by `create_like`: zero approval counts, required
counts frozen to the current active-member counts, initial status
"pending_group_b". The surrogate key is modelled as the next list
position; no claim depends on id values. -/
def newLikeRow (db : MDb) (likerGroupId likeeGroupId : Nat)
    (initiatorUserId : Uuid) : LikeRow :=
  { id := db.likes.length + 1,
    liker_group_id := likerGroupId,
    likee_group_id := likeeGroupId,
    initiator_user_id := some initiatorUserId,
    group_b_approvals_count := 0,
    group_b_required_count := countActiveMembers db likeeGroupId,
    group_a_approvals_count := 0,
    group_a_required_count := countActiveMembers db likerGroupId,
    status := "pending_group_b",
    matched_at := none }

/-- Embedding of `MatchingService.create_like`. `raceLikes` holds like
rows committed by concurrent transactions between the duplicate-like
pre-check and this commit; the unique constraint `uq_like` fires against
them and the caught IntegrityError is reported as 400. -/
def create_like (db : MDb) (raceLikes : List LikeRow)
    (likerGroupId likeeGroupId : Nat) (initiatorUserId : Uuid) :
    Except SvcErr (MDb × LikeRow) :=
  match dbGetGroup db likerGroupId with
  | none => .error (.http ⟨404, "Liker group not found."⟩)
  | some likerGroup =>
    if !likerGroup.is_active then .error (.http ⟨404, "Liker group not found."⟩)
    else
      match dbGetGroup db likeeGroupId with
      | none => .error (.http ⟨404, "Likee group not found."⟩)
      | some likeeGroup =>
        if !likeeGroup.is_active then
          .error (.http ⟨404, "Likee group not found."⟩)
        else if likerGroupId = likeeGroupId then
          .error (.http ⟨400, "A group cannot like itself."⟩)
        else if db.likes.any (fun l =>
            l.liker_group_id == likerGroupId && l.likee_group_id == likeeGroupId) then
          .error (.http ⟨400, "Like already exists."⟩)
        else
          let groupACount := countActiveMembers db likerGroupId
          let groupBCount := countActiveMembers db likeeGroupId
          if groupACount = 0 ∨ groupBCount = 0 then
            .error (.http ⟨400, "Groups must have at least one active member."⟩)
          else
            let like := newLikeRow db likerGroupId likeeGroupId initiatorUserId
            if (db.likes ++ raceLikes).any (fun l =>
                l.liker_group_id == likerGroupId &&
                  l.likee_group_id == likeeGroupId) then
              .error (.http ⟨400, "Unable to create like."⟩)
            else
              .ok ({ db with likes := db.likes ++ [like] }, like)

/-- Embedding of `MatchingService.approve_like`. Returns the committed
state, the reloaded like, and the Match if this call created one. The
final `db.commit()` in the source is NOT wrapped in `try/except
IntegrityError`, so a Match insert violating `uq_match` (or
`check_match_order`) escapes as `SvcErr.integrityError`. The falsy test
`if not user_group_id` treats a group id of 0 like a missing one. -/
def approve_like (db : MDb) (likeId : Nat) (userId : Uuid) (now : Nat) :
    Except SvcErr (MDb × LikeRow × Option MatchRow) :=
  match dbGetLike db likeId with
  | none => .error (.http ⟨404, "Like not found."⟩)
  | some like =>
    if like.status = "matched" ∨ like.status = "rejected" then
      .error (.http ⟨400, "Like is already " ++ like.status ++ "."⟩)
    else
      match selectUserGroupId like (activeMemberships db userId) with
      | none => .error (.http ⟨403, "User is not a member of either group in this like."⟩)
      | some userGroupId =>
        if userGroupId = 0 then
          .error (.http ⟨403, "User is not a member of either group in this like."⟩)
        else if userGroupId = like.likee_group_id then
          let like1 :=
            { like with group_b_approvals_count := like.group_b_approvals_count + 1 }
          let like2 :=
            if like1.group_b_required_count ≤ like1.group_b_approvals_count then
              { like1 with status := "pending_group_a" }
            else like1
          .ok ({ db with likes := updateLikeRow db.likes like2 }, like2, none)
        else if userGroupId = like.liker_group_id then
          let like1 :=
            { like with group_a_approvals_count := like.group_a_approvals_count + 1 }
          if like1.group_a_required_count ≤ like1.group_a_approvals_count then
            if like1.group_b_required_count ≤ like1.group_b_approvals_count then
              let like2 :=
                { like1 with status := "matched", matched_at := some now }
              let m := newMatchRow db like now
              if matchInsertConflicts db.matchRows m then
                .error .integrityError
              else
                .ok ({ db with
                        likes := updateLikeRow db.likes like2,
                        matchRows := db.matchRows ++ [m] }, like2, some m)
            else
              .ok ({ db with likes := updateLikeRow db.likes like1 }, like1, none)
          else
            .ok ({ db with likes := updateLikeRow db.likes like1 }, like1, none)
        else
          .ok (db, like, none)

/-! ## Photos route (`app/api/routes/photos.py`) -/

/-- Embedding of the `PUT /photos/` handler `update_user_photos`: takes
the caller's stored pictures and the replacement list; returns the
stored pictures after the call together with the response. URLs absent
from the current list are rejected with 400 and nothing is committed;
otherwise the stored list becomes exactly the submitted list. -/
def update_user_photos (pictures : Option (List String))
    (pictureUrls : List String) :
    Option (List String) × Except HErr (List String) :=
  let currentPictures := pictures.getD []
  let invalidUrls := pictureUrls.filter (fun url => !currentPictures.contains url)
  if invalidUrls.isEmpty then
    (some pictureUrls, .ok pictureUrls)
  else
    (pictures,
     .error ⟨400, "Invalid photo URLs: " ++ String.intercalate ", " invalidUrls⟩)

/-! ## Concrete states used by counterexamples and witnesses -/

/-- Settings with the source's defaults. -/
def exSettings : Settings := ⟨"change-me", "HS256", 15, 10080⟩

/-- AuthUser identifier in canonical textual UUID form. -/
def exUuid : Uuid := "0f8fad5b-d9cb-469f-a165-70867728950e"

/-- Paired profile identifier. -/
def exUserUuid : Uuid := "7c9e6679-7425-40de-944b-e07fc1f90ae7"

/-- Profile row for the refresh scenario. -/
def exProfile2 : UserRow :=
  ⟨exUserUuid, "Ada", some "ada@example.com", none, none, none, none, none⟩

/-- Auth database holding one active AuthUser keyed by `exUuid`. -/
def exAuthDb2 : AuthDb :=
  ⟨[exProfile2], [⟨exUuid, "ada@example.com", "$2b$12$x", true, exUserUuid⟩]⟩

/-- Two active groups used by the matching scenarios. -/
def exGroup1 : GroupRow := ⟨1, some "A", none, none, true⟩

/-- Second active group. -/
def exGroup2 : GroupRow := ⟨2, some "B", none, none, true⟩

/-- Like from group 1 to group 2, nothing approved yet. -/
def exLike3 : LikeRow := ⟨1, 1, 2, some "u", 0, 1, 0, 2, "pending_group_b", none⟩

/-- State where user "u" is an active member of BOTH groups and the
liker-group membership row precedes the likee-group row in scan order. -/
def exDb3 : MDb :=
  ⟨[exGroup1, exGroup2],
   [⟨1, 1, "u", "member", true⟩, ⟨2, 2, "u", "member", true⟩],
   [exLike3], []⟩

/-- Like one liker-side approval away from matching (likee side already
satisfied). -/
def exLike4 : LikeRow := ⟨1, 1, 2, some "u", 1, 1, 1, 2, "pending_group_a", none⟩

/-- State where a Match row for the ordered pair (1, 2) already exists
when the final approval commits (e.g. created earlier by the reciprocal
like), and user "v" sits in the liker group. -/
def exDb4 : MDb :=
  ⟨[exGroup1, exGroup2], [⟨1, 1, "v", "member", true⟩], [exLike4],
   [⟨1, 1, 2, 0, true⟩]⟩

/-- Password of 72 characters whose UTF-8 encoding is 73 bytes (71 ASCII
characters plus one 2-byte character). -/
def longBytePassword : String := ⟨List.replicate 71 'a' ++ ['é']⟩

/-- Empty auth database. -/
def emptyAuthDb : AuthDb := ⟨[], []⟩

/-- Signup request carrying `longBytePassword`. -/
def exReq7 : SignUpRequest :=
  ⟨"eve@example.com", longBytePassword, "Eve", none, none, none, none, none⟩

/-- Like awaiting one likee-side approval (likee required count 1). -/
def likeW : LikeRow := ⟨1, 1, 2, none, 0, 1, 1, 2, "pending_group_b", none⟩

/-- State where user "w" sits in the likee group only. -/
def dbW : MDb :=
  ⟨[exGroup1, exGroup2], [⟨1, 2, "w", "member", true⟩], [likeW], []⟩

/-- Like one liker-side approval away from matching. -/
def likeV : LikeRow := ⟨1, 1, 2, none, 1, 1, 1, 2, "pending_group_a", none⟩

/-- State where user "v" sits in the liker group only and no Match
exists yet. -/
def dbV : MDb :=
  ⟨[exGroup1, exGroup2], [⟨1, 1, "v", "member", true⟩], [likeV], []⟩

/-- Like whose liker side already reached its required count while the
status is still "pending_group_b". -/
def likeX : LikeRow := ⟨1, 1, 2, none, 0, 1, 2, 2, "pending_group_b", none⟩

/-- State where user "x" sits in the likee group and delivers the final
outstanding approval. -/
def dbX : MDb :=
  ⟨[exGroup1, exGroup2], [⟨1, 2, "x", "member", true⟩], [likeX], []⟩

/-- Password of 73 ASCII characters (73 characters, 73 bytes). -/
def pw73Chars : String := ⟨List.replicate 73 'a'⟩

/-- Password of 72 ASCII characters (exactly 72 encoded bytes). -/
def pw72Bytes : String := ⟨List.replicate 72 'a'⟩

/-- Signup request carrying `pw73Chars`. -/
def exReq7a : SignUpRequest :=
  ⟨"eve@example.com", pw73Chars, "Eve", none, none, none, none, none⟩

/-- Signup request carrying `pw72Bytes`. -/
def exReq7b : SignUpRequest :=
  ⟨"eve@example.com", pw72Bytes, "Eve", none, none, none, none, none⟩

/-! ## Helper lemmas about dict update -/

theorem find?_map_setKey (k : String) (v : JVal) :
    ∀ d : JDict, d.any (fun p => p.1 == k) = true →
      (d.map (fun p => if p.1 == k then (k, v) else p)).find?
        (fun p => p.1 == k) = some (k, v)
  | [], h => by simp at h
  | p :: d, h => by
    by_cases hp : (p.1 == k) = true
    · simp only [List.map_cons, if_pos hp]
      exact List.find?_cons_of_pos _ (by simp)
    · have hd : d.any (fun p => p.1 == k) = true := by
        simp only [List.any_cons, Bool.or_eq_true] at h
        exact h.resolve_left hp
      simp only [List.map_cons, if_neg hp]
      rw [List.find?_cons_of_neg _ (by simpa using hp)]
      exact find?_map_setKey k v d hd

theorem find?_append_setKey (k : String) (v : JVal) :
    ∀ d : JDict, d.any (fun p => p.1 == k) = false →
      (d ++ [(k, v)]).find? (fun p => p.1 == k) = some (k, v)
  | [], _ => by
    simp only [List.nil_append]
    exact List.find?_cons_of_pos _ (by simp)
  | p :: d, h => by
    simp only [List.any_cons, Bool.or_eq_false_iff] at h
    rw [List.cons_append, List.find?_cons_of_neg _ (by simp [h.1])]
    exact find?_append_setKey k v d h.2

theorem dictGet_dictSet_self (d : JDict) (k : String) (v : JVal) :
    dictGet (dictSet d k v) k = some v := by
  unfold dictGet dictSet
  by_cases h : d.any (fun p => p.1 == k) = true
  · rw [if_pos h, find?_map_setKey k v d h]
    rfl
  · rw [if_neg h, find?_append_setKey k v d (Bool.eq_false_iff.mpr h)]
    rfl

theorem find?_map_setKey_ne (k k' : String) (v : JVal) (hk : k' ≠ k) :
    ∀ d : JDict,
      (d.map (fun p => if p.1 == k' then (k', v) else p)).find?
        (fun p => p.1 == k) = d.find? (fun p => p.1 == k)
  | [] => rfl
  | p :: d => by
    by_cases hp : (p.1 == k') = true
    · have hpk : (p.1 == k) = false := by
        have hp1 : p.1 = k' := by simpa using hp
        simp [hp1, hk]
      simp only [List.map_cons, if_pos hp]
      rw [List.find?_cons_of_neg (p := fun q : String × JVal => q.1 == k) _ (by simp [hk]),
        List.find?_cons_of_neg (p := fun q : String × JVal => q.1 == k) _ (by simp [hpk])]
      exact find?_map_setKey_ne k k' v hk d
    · simp only [List.map_cons, if_neg hp]
      by_cases hpk : (p.1 == k) = true
      · rw [List.find?_cons_of_pos (p := fun q : String × JVal => q.1 == k) _ hpk,
          List.find?_cons_of_pos (p := fun q : String × JVal => q.1 == k) _ hpk]
      · rw [List.find?_cons_of_neg (p := fun q : String × JVal => q.1 == k) _ (by simpa using hpk),
          List.find?_cons_of_neg (p := fun q : String × JVal => q.1 == k) _ (by simpa using hpk)]
        exact find?_map_setKey_ne k k' v hk d

theorem find?_append_setKey_ne (k k' : String) (v : JVal) (hk : k' ≠ k) :
    ∀ d : JDict,
      (d ++ [(k', v)]).find? (fun p => p.1 == k) = d.find? (fun p => p.1 == k)
  | [] => by
    simp only [List.nil_append]
    rw [List.find?_cons_of_neg _ (by simp [hk])]
  | p :: d => by
    by_cases hpk : (p.1 == k) = true
    · rw [List.cons_append, List.find?_cons_of_pos (p := fun q : String × JVal => q.1 == k) _ hpk,
        List.find?_cons_of_pos (p := fun q : String × JVal => q.1 == k) _ hpk]
    · rw [List.cons_append,
        List.find?_cons_of_neg (p := fun q : String × JVal => q.1 == k) _ (by simpa using hpk),
        List.find?_cons_of_neg (p := fun q : String × JVal => q.1 == k) _ (by simpa using hpk)]
      exact find?_append_setKey_ne k k' v hk d

theorem dictGet_dictSet_ne (d : JDict) (k k' : String) (v : JVal)
    (hk : k' ≠ k) : dictGet (dictSet d k' v) k = dictGet d k := by
  unfold dictGet dictSet
  by_cases h : d.any (fun p => p.1 == k') = true
  · rw [if_pos h, find?_map_setKey_ne k k' v hk d]
  · rw [if_neg h, find?_append_setKey_ne k k' v hk d]

theorem dictGet_dictUpdate_not_mem (k : String) :
    ∀ (extra : JDict) (d : JDict), k ∉ extra.map Prod.fst →
      dictGet (dictUpdate d extra) k = dictGet d k
  | [], _, _ => rfl
  | (k₁, v₁) :: rest, d, h => by
    simp only [List.map_cons, List.mem_cons, not_or] at h
    rw [show dictUpdate d ((k₁, v₁) :: rest) = dictUpdate (dictSet d k₁ v₁) rest
        from rfl,
      dictGet_dictUpdate_not_mem k rest (dictSet d k₁ v₁) h.2,
      dictGet_dictSet_ne d k k₁ v₁ (fun he => h.1 he.symm)]

theorem dictGet_dictUpdate_mem (k : String) (v : JVal) :
    ∀ (extra : JDict) (d : JDict), (extra.map Prod.fst).Nodup →
      (k, v) ∈ extra → dictGet (dictUpdate d extra) k = some v
  | [], _, _, hmem => absurd hmem (List.not_mem_nil _)
  | (k₁, v₁) :: rest, d, hnd, hmem => by
    simp only [List.map_cons, List.nodup_cons] at hnd
    rcases List.mem_cons.mp hmem with heq | hrest
    · injection heq with hk hv
      subst hk
      subst hv
      rw [show dictUpdate d ((k, v) :: rest) = dictUpdate (dictSet d k v) rest
          from rfl,
        dictGet_dictUpdate_not_mem k rest (dictSet d k v) hnd.1,
        dictGet_dictSet_self]
    · exact dictGet_dictUpdate_mem k v rest (dictSet d k₁ v₁) hnd.2 hrest

/-! ## Theorems -/

/-- C9: replacing the pictures list with a list containing any URL absent
from the current list is rejected with 400 and leaves the stored list
unchanged; replacing with a permutation of a subset of the current list
succeeds and afterwards the stored list equals the submitted list exactly. -/
theorem update_user_photos_replacement
    (pictures : Option (List String)) (pictureUrls : List String) :
    ((∃ u ∈ pictureUrls, u ∉ pictures.getD []) →
      (update_user_photos pictures pictureUrls).1 = pictures ∧
      ∃ d, (update_user_photos pictures pictureUrls).2 = .error ⟨400, d⟩) ∧
    (pictureUrls.Subperm (pictures.getD []) →
      update_user_photos pictures pictureUrls = (some pictureUrls, .ok pictureUrls)) := by
  constructor
  · rintro ⟨u, hu, hnot⟩
    have hmem : u ∈ pictureUrls.filter (fun url => !(pictures.getD []).contains url) :=
      List.mem_filter.mpr ⟨hu, by simpa using hnot⟩
    have hne : (pictureUrls.filter
        (fun url => !(pictures.getD []).contains url)).isEmpty = false := by
      rcases hfe : (pictureUrls.filter
          (fun url => !(pictures.getD []).contains url)).isEmpty with _ | _
      · rfl
      · exact absurd (List.isEmpty_iff.mp hfe ▸ hmem) (List.not_mem_nil u)
    unfold update_user_photos
    simp only [hne, Bool.false_eq_true, if_false]
    exact ⟨trivial, _, rfl⟩
  · intro hsub
    have hfil : pictureUrls.filter
        (fun url => !(pictures.getD []).contains url) = [] := by
      refine List.filter_eq_nil_iff.mpr ?_
      intro url hurl
      simpa using hsub.subset hurl
    unfold update_user_photos
    simp only [hfil, List.isEmpty_nil, if_true]

/-- C6: a signup request whose email already belongs to an existing
AuthUser fails with 400 "Email is already registered." and commits no new
User row and no new AuthUser row (the returned state is the input state). -/
theorem signup_duplicate_email
    (db : AuthDb) (raceAuth : List AuthUserRow) (data : SignUpRequest)
    (freshUserId freshAuthId : Uuid) (a : AuthUserRow)
    (ha : a ∈ db.auth_users) (he : a.email = data.email) :
    create_user_with_auth db raceAuth data freshUserId freshAuthId =
      (db, .error ⟨400, "Email is already registered."⟩) := by
  have hsome : (db.auth_users.find? (fun x => x.email == data.email)).isSome :=
    List.find?_isSome.mpr ⟨a, ha, by simp [he]⟩
  obtain ⟨b, hb⟩ := Option.isSome_iff_exists.mp hsome
  unfold create_user_with_auth get_auth_user_by_email
  rw [hb]

/-- C5: when both groups exist, are active and distinct, no like for the
ordered pair exists (in the table or committed concurrently), and both
groups have at least one active member, `create_like` persists exactly one
Like with zero approval counts, required counts equal to the groups'
active-member counts, and status "pending_group_b"; with the same
pre-checks but either active-member count zero it fails with 400
"Groups must have at least one active member.". -/
theorem create_like_spec
    (db : MDb) (raceLikes : List LikeRow) (likerGroupId likeeGroupId : Nat)
    (initiatorUserId : Uuid) (likerGroup likeeGroup : GroupRow)
    (h1 : dbGetGroup db likerGroupId = some likerGroup)
    (h2 : likerGroup.is_active = true)
    (h3 : dbGetGroup db likeeGroupId = some likeeGroup)
    (h4 : likeeGroup.is_active = true)
    (h5 : likerGroupId ≠ likeeGroupId)
    (h6 : ∀ l ∈ db.likes ++ raceLikes,
      ¬(l.liker_group_id = likerGroupId ∧ l.likee_group_id = likeeGroupId)) :
    (0 < countActiveMembers db likerGroupId →
      0 < countActiveMembers db likeeGroupId →
      ∃ db' like',
        create_like db raceLikes likerGroupId likeeGroupId initiatorUserId =
          .ok (db', like') ∧
        like'.group_a_approvals_count = 0 ∧
        like'.group_b_approvals_count = 0 ∧
        like'.group_a_required_count = countActiveMembers db likerGroupId ∧
        like'.group_b_required_count = countActiveMembers db likeeGroupId ∧
        like'.status = "pending_group_b" ∧
        db'.likes = db.likes ++ [like']) ∧
    ((countActiveMembers db likerGroupId = 0 ∨
        countActiveMembers db likeeGroupId = 0) →
      create_like db raceLikes likerGroupId likeeGroupId initiatorUserId =
        .error (.http ⟨400, "Groups must have at least one active member."⟩)) := by
  have hany1 : db.likes.any (fun l =>
      l.liker_group_id == likerGroupId && l.likee_group_id == likeeGroupId) = false := by
    rw [List.any_eq_false]
    intro l hl
    have := h6 l (List.mem_append_left _ hl)
    simpa using this
  have hany2 : (db.likes ++ raceLikes).any (fun l =>
      l.liker_group_id == likerGroupId && l.likee_group_id == likeeGroupId) = false := by
    rw [List.any_eq_false]
    intro l hl
    have := h6 l hl
    simpa using this
  constructor
  · intro hpos1 hpos2
    have heq : create_like db raceLikes likerGroupId likeeGroupId initiatorUserId =
        .ok ({ db with likes := db.likes ++
                [newLikeRow db likerGroupId likeeGroupId initiatorUserId] },
              newLikeRow db likerGroupId likeeGroupId initiatorUserId) := by
      unfold create_like
      rw [h1, h3]
      simp only [h2, h4, Bool.not_true, Bool.false_eq_true, if_false,
        if_neg h5, hany1, hany2,
        if_neg (by omega : ¬(countActiveMembers db likerGroupId = 0 ∨
          countActiveMembers db likeeGroupId = 0))]
    exact ⟨_, _, heq, rfl, rfl, rfl, rfl, rfl, rfl⟩
  · intro hzero
    unfold create_like
    rw [h1, h3]
    simp only [h2, h4, Bool.not_true, Bool.false_eq_true, if_false,
      if_neg h5, hany1, if_pos hzero]

/-- C8: for every subject and extra-claims map with keys disjoint from
the registered claims {type, sub, iat, exp}, decoding an access token
issued for that subject with those claims — same secret and algorithm,
before expiry — succeeds and yields a payload with type "access", sub
equal to the subject, and every extra claim present with its original
value. -/
theorem access_token_round_trip
    (subject : String) (extra : JDict) (settings : Settings)
    (expiresMinutes : Option Nat) (now t : Nat)
    (hnd : (extra.map Prod.fst).Nodup)
    (hdisj : ∀ k ∈ extra.map Prod.fst,
      k ≠ "type" ∧ k ≠ "sub" ∧ k ≠ "iat" ∧ k ≠ "exp")
    (hexp : t < now +
      60 * effectiveMinutes expiresMinutes settings.access_token_expire_minutes) :
    ∃ payload,
      decode_token
          (create_access_token subject expiresMinutes (some extra) settings now)
          settings t = .ok payload ∧
      dictGet payload "type" = some (.s "access") ∧
      dictGet payload "sub" = some (.s subject) ∧
      ∀ k v, (k, v) ∈ extra → dictGet payload k = some v := by
  have hnotmem : ∀ k₀ : String,
      (k₀ = "type" ∨ k₀ = "sub" ∨ k₀ = "iat" ∨ k₀ = "exp") →
      k₀ ∉ extra.map Prod.fst := by
    intro k₀ hk₀ hmem
    rcases hk₀ with h | h | h | h
    · exact (hdisj k₀ hmem).1 h
    · exact (hdisj k₀ hmem).2.1 h
    · exact (hdisj k₀ hmem).2.2.1 h
    · exact (hdisj k₀ hmem).2.2.2 h
  refine ⟨createTokenPayload "access" subject now
    (60 * effectiveMinutes expiresMinutes settings.access_token_expire_minutes)
    extra, ?_, ?_, ?_, ?_⟩
  · unfold decode_token jwtDecode create_access_token
    rw [if_neg (by exact fun h => h rfl),
      if_neg (not_not_intro (List.mem_singleton.mpr rfl))]
    have hgexp : dictGet
        (createTokenPayload "access" subject now
          (60 * effectiveMinutes expiresMinutes
            settings.access_token_expire_minutes) extra) "exp" =
        some (.t (now +
          60 * effectiveMinutes expiresMinutes
            settings.access_token_expire_minutes)) := by
      unfold createTokenPayload
      rw [dictGet_dictUpdate_not_mem "exp" extra _
        (hnotmem "exp" (by simp))]
      rfl
    show (match dictGet (createTokenPayload "access" subject now _ extra) "exp"
        with
      | some (.t e) => if e ≤ t then _ else _
      | some _ => _
      | none => _) = _
    rw [hgexp]
    simp only [if_neg (by omega : ¬(now +
      60 * effectiveMinutes expiresMinutes
        settings.access_token_expire_minutes ≤ t))]
    rfl
  · unfold createTokenPayload
    rw [dictGet_dictUpdate_not_mem "type" extra _ (hnotmem "type" (by simp))]
    rfl
  · unfold createTokenPayload
    rw [dictGet_dictUpdate_not_mem "sub" extra _ (hnotmem "sub" (by simp))]
    rfl
  · intro k v hkv
    exact dictGet_dictUpdate_mem k v extra _ hnd hkv

/-- C1: on a like that is not yet "matched" or "rejected", an approval
attributed to the likee group increments `group_b_approvals_count` by
exactly one and sets status to "pending_group_a" exactly when the new
count reaches or exceeds `group_b_required_count`; an approval attributed
to the liker group increments `group_a_approvals_count` by exactly one
and, when the new count reaches its required count and the likee side
already reached its required count, sets status to "matched", stamps
`matched_at`, and appends exactly one Match row whose `group1_id` is the
smaller and `group2_id` the larger of the two group identifiers. -/
theorem approve_like_state_machine
    (db : MDb) (likeId : Nat) (userId : Uuid) (now : Nat) (like : LikeRow)
    (g : Nat)
    (hfind : dbGetLike db likeId = some like)
    (hnm : like.status ≠ "matched") (hnr : like.status ≠ "rejected")
    (hsel : selectUserGroupId like (activeMemberships db userId) = some g)
    (hg : g ≠ 0) :
    (g = like.likee_group_id →
      ∃ db' like',
        approve_like db likeId userId now = .ok (db', like', none) ∧
        like'.group_b_approvals_count = like.group_b_approvals_count + 1 ∧
        like'.group_a_approvals_count = like.group_a_approvals_count ∧
        (like.group_b_required_count ≤ like.group_b_approvals_count + 1 →
          like'.status = "pending_group_a") ∧
        (like.group_b_approvals_count + 1 < like.group_b_required_count →
          like'.status = like.status) ∧
        db'.matchRows = db.matchRows) ∧
    (g ≠ like.likee_group_id → g = like.liker_group_id →
      ((like.group_a_required_count ≤ like.group_a_approvals_count + 1 ∧
          like.group_b_required_count ≤ like.group_b_approvals_count) →
        (∀ x ∈ db.matchRows,
          ¬(x.group1_id = min like.liker_group_id like.likee_group_id ∧
            x.group2_id = max like.liker_group_id like.likee_group_id)) →
        ∃ db' like' m,
          approve_like db likeId userId now = .ok (db', like', some m) ∧
          like'.group_a_approvals_count = like.group_a_approvals_count + 1 ∧
          like'.group_b_approvals_count = like.group_b_approvals_count ∧
          like'.status = "matched" ∧
          like'.matched_at = some now ∧
          m.group1_id = min like.liker_group_id like.likee_group_id ∧
          m.group2_id = max like.liker_group_id like.likee_group_id ∧
          db'.matchRows = db.matchRows ++ [m]) ∧
      (¬(like.group_a_required_count ≤ like.group_a_approvals_count + 1 ∧
          like.group_b_required_count ≤ like.group_b_approvals_count) →
        ∃ db' like',
          approve_like db likeId userId now = .ok (db', like', none) ∧
          like'.group_a_approvals_count = like.group_a_approvals_count + 1 ∧
          like'.group_b_approvals_count = like.group_b_approvals_count ∧
          like'.status = like.status ∧
          db'.matchRows = db.matchRows)) := by
  have hstat : ¬(like.status = "matched" ∨ like.status = "rejected") := by
    rintro (h | h)
    · exact hnm h
    · exact hnr h
  constructor
  · intro hgl
    subst hgl
    by_cases hb : like.group_b_required_count ≤ like.group_b_approvals_count + 1
    · have key : approve_like db likeId userId now =
          .ok ({ db with
                  likes := updateLikeRow db.likes
                    { like with
                        group_b_approvals_count :=
                          like.group_b_approvals_count + 1,
                        status := "pending_group_a" } },
            { like with
                group_b_approvals_count := like.group_b_approvals_count + 1,
                status := "pending_group_a" }, none) := by
        unfold approve_like
        rw [hfind]
        dsimp only
        rw [if_neg hstat, hsel]
        dsimp only
        rw [if_neg hg, if_pos rfl, if_pos hb]
      exact ⟨_, _, key, rfl, rfl, fun _ => rfl,
        fun hlt => absurd hb (by omega), rfl⟩
    · have key : approve_like db likeId userId now =
          .ok ({ db with
                  likes := updateLikeRow db.likes
                    { like with
                        group_b_approvals_count :=
                          like.group_b_approvals_count + 1 } },
            { like with
                group_b_approvals_count := like.group_b_approvals_count + 1 },
            none) := by
        unfold approve_like
        rw [hfind]
        dsimp only
        rw [if_neg hstat, hsel]
        dsimp only
        rw [if_neg hg, if_pos rfl, if_neg hb]
      exact ⟨_, _, key, rfl, rfl, fun h => absurd h hb, fun _ => rfl, rfl⟩
  · intro hne hgl
    subst hgl
    constructor
    · rintro ⟨ha, hb2⟩ hnoc
      have hne2 : like.liker_group_id ≠ like.likee_group_id := hne
      have hconf : matchInsertConflicts db.matchRows
          (newMatchRow db like now) = false := by
        unfold matchInsertConflicts newMatchRow
        simp only [Bool.or_eq_false_iff]
        constructor
        · rw [List.any_eq_false]
          intro x hx
          have hx2 := hnoc x hx
          simpa using hx2
        · simp [min_lt_max.mpr hne2]
      have key : approve_like db likeId userId now =
          .ok ({ db with
                  likes := updateLikeRow db.likes
                    { like with
                        group_a_approvals_count :=
                          like.group_a_approvals_count + 1,
                        status := "matched",
                        matched_at := some now },
                  matchRows := db.matchRows ++ [newMatchRow db like now] },
            { like with
                group_a_approvals_count := like.group_a_approvals_count + 1,
                status := "matched",
                matched_at := some now }, some (newMatchRow db like now)) := by
        unfold approve_like
        rw [hfind]
        dsimp only
        rw [if_neg hstat, hsel]
        dsimp only
        rw [if_neg hg, if_neg hne, if_pos rfl, if_pos ha, if_pos hb2, hconf,
          if_neg Bool.false_ne_true]
      exact ⟨_, _, _, key, rfl, rfl, rfl, rfl, rfl, rfl, rfl⟩
    · intro hnand
      by_cases ha : like.group_a_required_count ≤ like.group_a_approvals_count + 1
      · have hb2 : ¬like.group_b_required_count ≤ like.group_b_approvals_count := by
          intro h
          exact hnand ⟨ha, h⟩
        have key : approve_like db likeId userId now =
            .ok ({ db with
                    likes := updateLikeRow db.likes
                      { like with
                          group_a_approvals_count :=
                            like.group_a_approvals_count + 1 } },
              { like with
                  group_a_approvals_count := like.group_a_approvals_count + 1 },
              none) := by
          unfold approve_like
          rw [hfind]
          dsimp only
          rw [if_neg hstat, hsel]
          dsimp only
          rw [if_neg hg, if_neg hne, if_pos rfl, if_pos ha, if_neg hb2]
        exact ⟨_, _, key, rfl, rfl, rfl, rfl⟩
      · have key : approve_like db likeId userId now =
            .ok ({ db with
                    likes := updateLikeRow db.likes
                      { like with
                          group_a_approvals_count :=
                            like.group_a_approvals_count + 1 } },
              { like with
                  group_a_approvals_count := like.group_a_approvals_count + 1 },
              none) := by
          unfold approve_like
          rw [hfind]
          dsimp only
          rw [if_neg hstat, hsel]
          dsimp only
          rw [if_neg hg, if_neg hne, if_pos rfl, if_neg ha]
        exact ⟨_, _, key, rfl, rfl, rfl, rfl⟩

/-- Scan returning no side when no active membership matches either group. -/
theorem selectUserGroupId_eq_none (like : LikeRow) :
    ∀ ms : List GroupMemberRow,
      (∀ m ∈ ms, m.group_id ≠ like.likee_group_id ∧
        m.group_id ≠ like.liker_group_id) →
      selectUserGroupId like ms = none
  | [], _ => rfl
  | m :: ms, h => by
    unfold selectUserGroupId
    rw [if_neg (h m (List.mem_cons_self m ms)).1,
      if_neg (h m (List.mem_cons_self m ms)).2]
    exact selectUserGroupId_eq_none like ms
      (fun x hx => h x (List.mem_cons_of_mem m hx))

/-- C10 (implicit): an approval attributed to the likee group never
creates a Match — the Match component is `none` and the matches table is
unchanged — even when the liker side's approvals already reached their
required count; the likee side's final approval only moves the status to
"pending_group_a". -/
theorem likee_approval_never_creates_match
    (db : MDb) (likeId : Nat) (userId : Uuid) (now : Nat) (like : LikeRow)
    (hfind : dbGetLike db likeId = some like)
    (hnm : like.status ≠ "matched") (hnr : like.status ≠ "rejected")
    (hsel : selectUserGroupId like (activeMemberships db userId) =
      some like.likee_group_id)
    (hg : like.likee_group_id ≠ 0) :
    ∃ db' like',
      approve_like db likeId userId now = .ok (db', like', none) ∧
      db'.matchRows = db.matchRows ∧
      (like.group_a_required_count ≤ like.group_a_approvals_count →
        like.group_b_required_count ≤ like.group_b_approvals_count + 1 →
        like'.status = "pending_group_a") := by
  have hstat : ¬(like.status = "matched" ∨ like.status = "rejected") := by
    rintro (h | h)
    · exact hnm h
    · exact hnr h
  by_cases hb : like.group_b_required_count ≤ like.group_b_approvals_count + 1
  · have key : approve_like db likeId userId now =
        .ok ({ db with
                likes := updateLikeRow db.likes
                  { like with
                      group_b_approvals_count :=
                        like.group_b_approvals_count + 1,
                      status := "pending_group_a" } },
          { like with
              group_b_approvals_count := like.group_b_approvals_count + 1,
              status := "pending_group_a" }, none) := by
      unfold approve_like
      rw [hfind]
      dsimp only
      rw [if_neg hstat, hsel]
      dsimp only
      rw [if_neg hg, if_pos rfl, if_pos hb]
    exact ⟨_, _, key, rfl, fun _ _ => rfl⟩
  · have key : approve_like db likeId userId now =
        .ok ({ db with
                likes := updateLikeRow db.likes
                  { like with
                      group_b_approvals_count :=
                        like.group_b_approvals_count + 1 } },
          { like with
              group_b_approvals_count := like.group_b_approvals_count + 1 },
          none) := by
      unfold approve_like
      rw [hfind]
      dsimp only
      rw [if_neg hstat, hsel]
      dsimp only
      rw [if_neg hg, if_pos rfl, if_neg hb]
    exact ⟨_, _, key, rfl, fun _ h => absurd h hb⟩

/-- C3 counterexample: in `exDb3` the user "u" is an active member of
BOTH the liker group (1) and the likee group (2) of the like, yet the
approval is attributed to the liker group, not the likee group — the
liker-group membership row comes first in scan order, so group A's
counter is incremented and group B's stays 0, refuting "the likee-group
side is preferred" for users in both groups. -/
theorem approve_like_side_selection_counterexample :
    (∃ m ∈ exDb3.group_members, m.user_id = "u" ∧ m.is_active = true ∧
      m.group_id = exLike3.liker_group_id) ∧
    (∃ m ∈ exDb3.group_members, m.user_id = "u" ∧ m.is_active = true ∧
      m.group_id = exLike3.likee_group_id) ∧
    exLike3.liker_group_id ≠ exLike3.likee_group_id ∧
    selectUserGroupId exLike3 (activeMemberships exDb3 "u") =
      some exLike3.liker_group_id ∧
    (approve_like exDb3 1 "u" 0).toOption.map
      (fun r => (r.2.1.group_a_approvals_count,
        r.2.1.group_b_approvals_count)) = some (1, 0) := by decide

/-- C3 amended: the approving side is the group of the first
active-membership row in scan order matching either group, with the
likee group tested before the liker group on each row — so a user in
both groups is attributed to the likee group only when no liker-group
row precedes the likee-group row; a user whose active memberships match
neither group gets 403 Forbidden. -/
theorem approve_like_side_selection_amended
    (db : MDb) (likeId : Nat) (userId : Uuid) (now : Nat) (like : LikeRow)
    (m : GroupMemberRow) (ms : List GroupMemberRow)
    (hfind : dbGetLike db likeId = some like)
    (hnm : like.status ≠ "matched") (hnr : like.status ≠ "rejected") :
    (m.group_id = like.likee_group_id →
      selectUserGroupId like (m :: ms) = some like.likee_group_id) ∧
    (m.group_id ≠ like.likee_group_id → m.group_id = like.liker_group_id →
      selectUserGroupId like (m :: ms) = some like.liker_group_id) ∧
    (m.group_id ≠ like.likee_group_id → m.group_id ≠ like.liker_group_id →
      selectUserGroupId like (m :: ms) = selectUserGroupId like ms) ∧
    ((∀ x ∈ activeMemberships db userId,
        x.group_id ≠ like.likee_group_id ∧
          x.group_id ≠ like.liker_group_id) →
      approve_like db likeId userId now =
        .error (.http
          ⟨403, "User is not a member of either group in this like."⟩)) := by
  have hstat : ¬(like.status = "matched" ∨ like.status = "rejected") := by
    rintro (h | h)
    · exact hnm h
    · exact hnr h
  refine ⟨?_, ?_, ?_, ?_⟩
  · intro h1
    unfold selectUserGroupId
    rw [if_pos h1]
  · intro h1 h2
    unfold selectUserGroupId
    rw [if_neg h1, if_pos h2]
  · intro h1 h2
    show (if m.group_id = like.likee_group_id then some like.likee_group_id
      else if m.group_id = like.liker_group_id then some like.liker_group_id
      else selectUserGroupId like ms) = selectUserGroupId like ms
    rw [if_neg h1, if_neg h2]
  · intro hnone
    have hsel := selectUserGroupId_eq_none like (activeMemberships db userId)
      hnone
    unfold approve_like
    rw [hfind]
    dsimp only
    rw [if_neg hstat, hsel]

/-- C4 counterexample: in `exDb4` a Match row for the ordered pair (1, 2)
already exists when user "v"'s final liker-side approval commits; the
service's final commit is not wrapped in an IntegrityError handler, so
the failure escapes as an unhandled IntegrityError (server error) instead
of being reported as a client error. -/
theorem approve_like_race_counterexample :
    (∃ x ∈ exDb4.matchRows, x.group1_id = 1 ∧ x.group2_id = 2) ∧
    approve_like exDb4 1 "v" 7 = .error .integrityError := by decide

/-- C4 amended: signup, group creation, member addition and like creation
wrap their commits and report uniqueness races as 400 client errors
(shown here for `create_like`), but the `approve_like` commit is not
wrapped: a Match insert whose ordered group pair already exists escapes
as an unhandled IntegrityError. -/
theorem uniqueness_race_handling_amended
    (db : MDb) (likeId : Nat) (userId : Uuid) (now : Nat) (like : LikeRow)
    (raceLikes : List LikeRow) (likerGroupId likeeGroupId : Nat)
    (initiatorUserId : Uuid) (likerGroup likeeGroup : GroupRow) :
    ((dbGetLike db likeId = some like) →
      like.status ≠ "matched" → like.status ≠ "rejected" →
      selectUserGroupId like (activeMemberships db userId) =
        some like.liker_group_id →
      like.liker_group_id ≠ 0 →
      like.liker_group_id ≠ like.likee_group_id →
      like.group_a_required_count ≤ like.group_a_approvals_count + 1 →
      like.group_b_required_count ≤ like.group_b_approvals_count →
      (∃ x ∈ db.matchRows,
        x.group1_id = min like.liker_group_id like.likee_group_id ∧
        x.group2_id = max like.liker_group_id like.likee_group_id) →
      approve_like db likeId userId now = .error .integrityError) ∧
    ((dbGetGroup db likerGroupId = some likerGroup) →
      likerGroup.is_active = true →
      (dbGetGroup db likeeGroupId = some likeeGroup) →
      likeeGroup.is_active = true →
      likerGroupId ≠ likeeGroupId →
      (∀ l ∈ db.likes, ¬(l.liker_group_id = likerGroupId ∧
        l.likee_group_id = likeeGroupId)) →
      0 < countActiveMembers db likerGroupId →
      0 < countActiveMembers db likeeGroupId →
      (∃ r ∈ raceLikes, r.liker_group_id = likerGroupId ∧
        r.likee_group_id = likeeGroupId) →
      create_like db raceLikes likerGroupId likeeGroupId initiatorUserId =
        .error (.http ⟨400, "Unable to create like."⟩)) := by
  constructor
  · intro hfind hnm hnr hsel hg hne ha hb2 hdup
    have hstat : ¬(like.status = "matched" ∨ like.status = "rejected") := by
      rintro (h | h)
      · exact hnm h
      · exact hnr h
    have hconf : matchInsertConflicts db.matchRows
        (newMatchRow db like now) = true := by
      unfold matchInsertConflicts newMatchRow
      refine Bool.or_eq_true_iff.mpr (Or.inl ?_)
      rw [List.any_eq_true]
      obtain ⟨x, hx, hx1, hx2⟩ := hdup
      exact ⟨x, hx, by simp [hx1, hx2]⟩
    unfold approve_like
    rw [hfind]
    dsimp only
    rw [if_neg hstat, hsel]
    dsimp only
    rw [if_neg hg, if_neg hne, if_pos rfl, if_pos ha, if_pos hb2, hconf,
      if_pos rfl]
  · intro h1 h2 h3 h4 h5 h6 hpos1 hpos2 hrace
    have hany1 : db.likes.any (fun l =>
        l.liker_group_id == likerGroupId &&
          l.likee_group_id == likeeGroupId) = false := by
      rw [List.any_eq_false]
      intro l hl
      simpa using h6 l hl
    have hany2 : (db.likes ++ raceLikes).any (fun l =>
        l.liker_group_id == likerGroupId &&
          l.likee_group_id == likeeGroupId) = true := by
      rw [List.any_eq_true]
      obtain ⟨r, hr, hr1, hr2⟩ := hrace
      exact ⟨r, List.mem_append_right _ hr, by simp [hr1, hr2]⟩
    unfold create_like
    rw [h1, h3]
    simp only [h2, h4, Bool.not_true, Bool.false_eq_true, if_false,
      if_neg h5, hany1, hany2,
      if_neg (by omega : ¬(countActiveMembers db likerGroupId = 0 ∨
        countActiveMembers db likeeGroupId = 0))]
    rw [if_pos trivial]

/-- Character count never exceeds the UTF-8 byte count. -/
theorem string_length_le_utf8ByteSize (s : String) :
    s.length ≤ s.utf8ByteSize := by
  rcases s with ⟨data⟩
  show data.length ≤ String.utf8ByteSize ⟨data⟩
  rw [show String.utf8ByteSize ⟨data⟩ = String.utf8ByteSize.go data from rfl]
  induction data with
  | nil => simp [String.utf8ByteSize.go]
  | cons c cs ih =>
    rw [show String.utf8ByteSize.go (c :: cs) =
      String.utf8ByteSize.go cs + c.utf8Size from rfl]
    have hc := Char.utf8Size_pos c
    simp only [List.length_cons]
    omega

/-- C7 counterexample: `longBytePassword` encodes to 73 bytes yet has 72
characters, so it passes the schema layer's structural validation (no
422) and is instead rejected at the hashing step with a 400, refuting
"every 73-or-more-byte password is rejected at the 422 layer before
hashing runs". -/
theorem password_byte_limit_counterexample :
    72 < longBytePassword.utf8ByteSize ∧
    longBytePassword.length ≤ 72 ∧
    signUpRequestValid exReq7 = true ∧
    signupEndpoint emptyAuthDb [] exReq7 "u1" "a1" =
      .httpError ⟨400, "Password exceeds bcrypt 72-byte limit."⟩ := by decide

/-- C7 amended: the structural-validation layer bounds the password by 72
CHARACTERS, not bytes — passwords over 72 characters are rejected with
422 before hashing; a password within 8–72 characters whose UTF-8
encoding exceeds 72 bytes passes validation and is rejected at the
hashing step with 400 "Password exceeds bcrypt 72-byte limit."; a
password of exactly 72 encoded bytes (and at least 8 characters) passes
validation and hashing succeeds. -/
theorem password_byte_limit_amended
    (db : AuthDb) (raceAuth : List AuthUserRow) (req : SignUpRequest)
    (freshUserId freshAuthId : Uuid) :
    (72 < req.password.length →
      signupEndpoint db raceAuth req freshUserId freshAuthId =
        .validationError) ∧
    (8 ≤ req.password.length → req.password.length ≤ 72 →
      1 ≤ req.name.length → 72 < req.password.utf8ByteSize →
      get_auth_user_by_email db req.email = none →
      signupEndpoint db raceAuth req freshUserId freshAuthId =
        .httpError ⟨400, "Password exceeds bcrypt 72-byte limit."⟩) ∧
    (req.password.utf8ByteSize = 72 → 8 ≤ req.password.length →
      1 ≤ req.name.length →
      signUpRequestValid req = true ∧
      get_password_hash req.password = .ok (bcryptDigest req.password)) := by
  refine ⟨?_, ?_, ?_⟩
  · intro hlen
    have hv : signUpRequestValid req = false := by
      unfold signUpRequestValid
      simp [Nat.not_le.mpr hlen]
    unfold signupEndpoint
    rw [hv]
    rfl
  · intro hl8 hl72 hn1 hbytes hemail
    have hv : signUpRequestValid req = true := by
      unfold signUpRequestValid
      simp [hl8, hl72, hn1]
    have hhash : get_password_hash req.password =
        .error "Password exceeds bcrypt 72-byte limit." := by
      unfold get_password_hash validate_password_length
      rw [if_pos hbytes]
    have hc : create_user_with_auth db raceAuth req freshUserId freshAuthId =
        (db, .error ⟨400, "Password exceeds bcrypt 72-byte limit."⟩) := by
      unfold create_user_with_auth
      rw [hemail]
      dsimp only
      rw [hhash]
    unfold signupEndpoint
    rw [hv, if_pos rfl, hc]
  · intro hbytes hl8 hn1
    have hl72 : req.password.length ≤ 72 :=
      hbytes ▸ string_length_le_utf8ByteSize req.password
    constructor
    · unfold signUpRequestValid
      simp [hl8, hl72, hn1]
    · unfold get_password_hash validate_password_length
      rw [if_neg (by omega : ¬req.password.utf8ByteSize > 72)]

/-- C2: every refresh token the system itself issues carries the
AuthUser's UUID (rendered as text) as its subject, but the refresh route
parses the subject with `int(...)`, which fails on every canonical UUID
string — so even with the AuthUser present and active the route answers
401 "Invalid refresh token." instead of the specified 200 with a fresh
token pair. -/
theorem refresh_uuid_subject_rejected :
    (∃ a ∈ exAuthDb2.auth_users, a.id = exUuid ∧ a.is_active = true) ∧
    decode_token ((issue_tokens exUuid exUserUuid exSettings 0).2)
      exSettings 0 = .ok (createTokenPayload "refresh" exUuid 0 604800
        [("user_id", .s exUserUuid)]) ∧
    refresh_token_route exAuthDb2 exSettings 0
      (issue_tokens exUuid exUserUuid exSettings 0).2 =
      .error ⟨401, "Invalid refresh token."⟩ := by decide

/-! ## Witnesses -/

/-- Witness for C1: in `dbW` the likee member's approval reaches the
likee threshold and moves the status to "pending_group_a"; in `dbV` the
liker member's final approval creates the Match (1, 2). -/
theorem approve_like_state_machine_witness :
    (∃ db' like', approve_like dbW 1 "w" 5 = .ok (db', like', none) ∧
      like'.group_b_approvals_count = 1 ∧ like'.status = "pending_group_a") ∧
    (∃ db' like' m, approve_like dbV 1 "v" 5 = .ok (db', like', some m) ∧
      like'.status = "matched" ∧ m.group1_id = 1 ∧ m.group2_id = 2 ∧
      db'.matchRows = [m]) := by
  constructor
  · obtain ⟨db', like', heq, hb1, _, hs, _, _⟩ :=
      (approve_like_state_machine dbW 1 "w" 5 likeW 2 (by decide) (by decide)
        (by decide) (by decide) (by decide)).1 (by decide)
    refine ⟨db', like', heq, ?_, hs (by decide)⟩
    rw [hb1]
    decide
  · obtain ⟨db', like', m, heq, _, _, hst, _, hm1, hm2, hmr⟩ :=
      ((approve_like_state_machine dbV 1 "v" 5 likeV 1 (by decide) (by decide)
        (by decide) (by decide) (by decide)).2 (by decide) (by decide)).1
        ⟨by decide, by decide⟩ (by decide)
    refine ⟨db', like', m, heq, hst, ?_, ?_, ?_⟩
    · rw [hm1]
      decide
    · rw [hm2]
      decide
    · rw [hmr]
      rfl

/-- Witness for C10: user "x"'s likee-side approval at `dbX` — the last
outstanding approval, the liker side being already satisfied — yields no
Match and only moves the status to "pending_group_a". -/
theorem likee_approval_never_creates_match_witness :
    ∃ db' like', approve_like dbX 1 "x" 3 = .ok (db', like', none) ∧
      db'.matchRows = [] ∧ like'.status = "pending_group_a" := by
  obtain ⟨db', like', heq, hmr, hs⟩ :=
    likee_approval_never_creates_match dbX 1 "x" 3 likeX (by decide)
      (by decide) (by decide) (by decide) (by decide)
  exact ⟨db', like', heq, hmr, hs (by decide) (by decide)⟩

/-- Witness for the amended C3: a likee-group membership row at the head
of the scan wins, and a user in neither group gets the 403. -/
theorem approve_like_side_selection_amended_witness :
    selectUserGroupId exLike3 [⟨5, 2, "z", "member", true⟩] = some 2 ∧
    approve_like exDb3 1 "nobody" 0 =
      .error (.http
        ⟨403, "User is not a member of either group in this like."⟩) := by
  constructor
  · exact (approve_like_side_selection_amended exDb3 1 "nobody" 0 exLike3
      ⟨5, 2, "z", "member", true⟩ [] (by decide) (by decide) (by decide)).1
      (by decide)
  · exact (approve_like_side_selection_amended exDb3 1 "nobody" 0 exLike3
      ⟨5, 2, "z", "member", true⟩ [] (by decide) (by decide) (by decide)).2.2.2
      (by decide)

/-- Witness for the amended C4: the duplicate-Match commit in
`approve_like` escapes as an unhandled IntegrityError, while the same
kind of race in `create_like` is reported as a 400 client error. -/
theorem uniqueness_race_handling_amended_witness :
    approve_like exDb4 1 "v" 7 = .error .integrityError ∧
    create_like exDb3 [⟨9, 2, 1, none, 0, 1, 0, 1, "pending_group_b", none⟩]
      2 1 "u" = .error (.http ⟨400, "Unable to create like."⟩) := by
  constructor
  · exact (uniqueness_race_handling_amended exDb4 1 "v" 7 exLike4 [] 0 0 ""
      exGroup1 exGroup1).1 (by decide) (by decide) (by decide) (by decide)
      (by decide) (by decide) (by decide) (by decide) (by decide)
  · exact (uniqueness_race_handling_amended exDb3 0 "" 0 exLike3
      [⟨9, 2, 1, none, 0, 1, 0, 1, "pending_group_b", none⟩] 2 1 "u"
      exGroup2 exGroup1).2 (by decide) (by decide) (by decide) (by decide)
      (by decide) (by decide) (by decide) (by decide) (by decide)

/-- Witness for C5: liking group 1 from group 2 in `exDb3` persists a
fresh like with zero counts, required counts 1 and 1, and status
"pending_group_b". -/
theorem create_like_spec_witness :
    ∃ db' like', create_like exDb3 [] 2 1 "u" = .ok (db', like') ∧
      like'.group_a_approvals_count = 0 ∧ like'.group_b_approvals_count = 0 ∧
      like'.group_a_required_count = 1 ∧ like'.group_b_required_count = 1 ∧
      like'.status = "pending_group_b" := by
  obtain ⟨db', like', heq, f1, f2, f3, f4, f5, _⟩ :=
    (create_like_spec exDb3 [] 2 1 "u" exGroup2 exGroup1 (by decide)
      (by decide) (by decide) (by decide) (by decide) (by decide)).1
      (by decide) (by decide)
  refine ⟨db', like', heq, f1, f2, ?_, ?_, f5⟩
  · rw [f3]
    decide
  · rw [f4]
    decide

/-- Witness for C6: signing up again with "ada@example.com" against
`exAuthDb2` is rejected with 400 and leaves the database unchanged. -/
theorem signup_duplicate_email_witness :
    create_user_with_auth exAuthDb2 []
      ⟨"ada@example.com", "password123", "Bob", none, none, none, none, none⟩
      "new-user-id" "new-auth-id" =
      (exAuthDb2, .error ⟨400, "Email is already registered."⟩) :=
  signup_duplicate_email exAuthDb2 [] _ "new-user-id" "new-auth-id"
    ⟨exUuid, "ada@example.com", "$2b$12$x", true, exUserUuid⟩ (by decide) rfl

/-- Witness for the amended C7: a 73-character password is rejected at
the 422 layer; the 72-character / 73-byte password is rejected at the
hashing step with 400; the 72-byte password passes validation and
hashing. -/
theorem password_byte_limit_amended_witness :
    signupEndpoint emptyAuthDb [] exReq7a "u1" "a1" = .validationError ∧
    signupEndpoint emptyAuthDb [] exReq7 "u1" "a1" =
      .httpError ⟨400, "Password exceeds bcrypt 72-byte limit."⟩ ∧
    (signUpRequestValid exReq7b = true ∧
      get_password_hash pw72Bytes = .ok (bcryptDigest pw72Bytes)) := by
  refine ⟨?_, ?_, ?_⟩
  · exact (password_byte_limit_amended emptyAuthDb [] exReq7a "u1" "a1").1
      (by decide)
  · exact (password_byte_limit_amended emptyAuthDb [] exReq7 "u1" "a1").2.1
      (by decide) (by decide) (by decide) (by decide) (by decide)
  · exact (password_byte_limit_amended emptyAuthDb [] exReq7b "u1" "a1").2.2
      (by decide) (by decide) (by decide)

/-- Witness for C8: a round trip through issue-and-decode for subject
"42" with extra claim user_id = "abc" under the default settings. -/
theorem access_token_round_trip_witness :
    ∃ payload,
      decode_token (create_access_token "42" none
        (some [("user_id", .s "abc")]) exSettings 0) exSettings 0 =
        .ok payload ∧
      dictGet payload "type" = some (.s "access") ∧
      dictGet payload "sub" = some (.s "42") ∧
      dictGet payload "user_id" = some (.s "abc") := by
  obtain ⟨payload, hdec, hty, hsub, hall⟩ :=
    access_token_round_trip "42" [("user_id", .s "abc")] exSettings none 0 0
      (by decide) (by decide) (by decide)
  exact ⟨payload, hdec, hty, hsub, hall "user_id" (.s "abc") (by decide)⟩

/-- Witness for C9: replacing ["a", "b"] with ["c"] is rejected and the
stored list is untouched; replacing with the subset ["b"] succeeds and
stores exactly ["b"]. -/
theorem update_user_photos_replacement_witness :
    (update_user_photos (some ["a", "b"]) ["c"]).1 = some ["a", "b"] ∧
    update_user_photos (some ["a", "b"]) ["b"] = (some ["b"], .ok ["b"]) := by
  constructor
  · exact ((update_user_photos_replacement (some ["a", "b"]) ["c"]).1
      ⟨"c", by decide, by decide⟩).1
  · exact (update_user_photos_replacement (some ["a", "b"]) ["b"]).2
      (List.Sublist.subperm (List.Sublist.cons "a" (List.Sublist.refl ["b"])))

end DatingApp
